import Mathlib

set_option maxRecDepth 100000

/-!
Verification of the session-routing and response-caching layer of the
MasterversAcharya repository (spiritual_api.py, masterversacharya/spiritual_api.py,
agent.py, telegram_bot.py), shallowly embedded in Lean.

Python strings are modelled as Lean `String`, Python dict/list JSON values as the
inductive `JValue`, Python exceptions as `Except Unit`, and `time.time()` values
as `Int` (only ordering and subtraction matter).
-/

/-! ## Python string primitives -/

/-- Python `str.lower()` restricted to basic latin letters, character by
character (`Char.toLower` is exactly the ASCII lowering that matters for the
identifiers appearing in this repository). -/
def pyLower (s : String) : String :=
  ⟨s.data.map Char.toLower⟩

/-- One step of Python `str.title()` over a character list: an alphabetic
character starting a word is uppercased, later alphabetic characters are
lowercased, other characters are kept; the boolean records whether the
previous character was alphabetic. -/
def pyTitleAux : Bool → List Char → List Char
  | _, [] => []
  | prevAlpha, c :: cs =>
    (if c.isAlpha then (if prevAlpha then c.toLower else c.toUpper) else c)
      :: pyTitleAux c.isAlpha cs

/-- Python `str.title()` restricted to basic latin letters. -/
def pyTitle (s : String) : String :=
  ⟨pyTitleAux false s.data⟩

/-- Does the first character list start with the second one as a prefix
(helper for the Python substring test)? -/
def hasPrefixChars : List Char → List Char → Bool
  | _, [] => true
  | [], _ :: _ => false
  | c :: cs, d :: ds => c = d && hasPrefixChars cs ds

/-- Does `hay` contain `needle` as a contiguous run (helper for the Python
substring test)? -/
def hasSubstrChars (needle : List Char) : List Char → Bool
  | [] => hasPrefixChars ([] : List Char) needle
  | d :: ds => hasPrefixChars (d :: ds) needle || hasSubstrChars needle ds

/-- Python `needle in hay` for strings: substring containment. -/
def pyInStr (needle hay : String) : Bool :=
  hasSubstrChars needle.data hay.data

/-- Python slicing `s[:n]` on a string: the first `n` code points. -/
def pyTake (s : String) (n : Nat) : String :=
  ⟨s.data.take n⟩

/-- Code-point lexicographic `<=` on character lists, exactly Python's string
comparison: compare elementwise, a strict prefix is smaller. -/
def lexLeChars : List Char → List Char → Bool
  | [], _ => true
  | _ :: _, [] => false
  | c :: cs, d :: ds => if c < d then true else if d < c then false else lexLeChars cs ds

/-- Python `a <= b` on strings. -/
def pyStrLe (a b : String) : Bool :=
  lexLeChars a.data b.data

/-- The relation `pyStrLe` as a `Prop`-valued order on strings. -/
def pyLeRel (a b : String) : Prop :=
  pyStrLe a b = true

instance instDecPyLeRel : DecidableRel pyLeRel :=
  fun _ _ => instDecidableEqBool _ _

/-! ## TTL cache (spiritual_api.py, the `response_cache` dictionary)

`get_religious_information` stores `{'data': result, 'timestamp': time.time()}`
under the cache key and on lookup returns the stored data only when
`time.time() - entry['timestamp'] < self.cache_time`; otherwise it falls
through to a fresh upstream fetch.  `self.cache_time = 24 * 60 * 60`. -/

/-- `self.cache_time = 24 * 60 * 60  # 24 hours in seconds`. -/
def cacheTime : Int := 24 * 60 * 60

/-- Storing a result: `self.response_cache[cache_key] = {'data': result,
'timestamp': time.time()}`. -/
def cachePut {α : Type} (cache : String → Option (α × Int)) (key : String)
    (payload : α) (now : Int) : String → Option (α × Int) :=
  fun k => if k = key then some (payload, now) else cache k

/-- Reading a result: the entry is used only if it exists and
`now - entry['timestamp'] < ttl`; an expired entry is treated as absent
(the code then refetches). -/
def cacheGet {α : Type} (cache : String → Option (α × Int)) (key : String)
    (now : Int) (ttl : Int) : Option α :=
  match cache key with
  | none => none
  | some (payload, createdAt) => if now - createdAt < ttl then some payload else none

/-! ## Cache key construction -/

/-- `SpiritualKnowledgeAPI._get_cache_key`: the `category` argument is subject
to Python truthiness (`if category:`), so `None` and `""` both omit the
category segment. -/
def get_cache_key (queryType identifier : String) (category : Option String) : String :=
  match category with
  | some c => if c = "" then queryType ++ "-" ++ identifier
              else queryType ++ "-" ++ identifier ++ "-" ++ c
  | none => queryType ++ "-" ++ identifier

/-- Cache key built inside `compare_religions` (identical in both copies of
spiritual_api.py):
`self._get_cache_key("comparison", f"{religion1}-{religion2}", aspect)`.
The two religions are joined in call order, without sorting. -/
def compareCacheKey (religion1 religion2 aspect : String) : String :=
  get_cache_key "comparison" (religion1 ++ "-" ++ religion2) (some aspect)

/-- Python `sorted` on a list of strings (ascending code-point lexicographic
order). -/
def pySorted (l : List String) : List String :=
  List.insertionSort pyLeRel l

/-- Cache key built inside `masterversacharya.spiritual_api.get_interfaith_dialogue`:
`religions_key = "-".join(sorted(valid_religions))` and then
`self._get_cache_key("interfaith", religions_key, topic[:50])`. -/
def interfaithCacheKey (validReligions : List String) (topic : String) : String :=
  get_cache_key "interfaith" (String.intercalate "-" (pySorted validReligions))
    (some (pyTake topic 50))

/-! ## JSON values and Python operational semantics

The Agent Run Service reply (`api_response = response.json()` in
telegram_bot.py) is an arbitrary JSON value.  Python operations that can raise
(`TypeError`, `KeyError`, `IndexError`, `AttributeError`) return
`Except Unit`; the distinction between exception classes is irrelevant here
because `handle_message` catches every exception alike. -/

inductive JValue where
  | null : JValue
  | bool : Bool → JValue
  | num : Int → JValue
  | str : String → JValue
  | arr : List JValue → JValue
  | obj : List (String × JValue) → JValue

/-- Python truthiness of a JSON value (`if x:`); total. -/
def pyTruthy : JValue → Bool
  | .null => false
  | .bool b => b
  | .num n => decide (n ≠ 0)
  | .str s => decide (s ≠ "")
  | .arr xs => !xs.isEmpty
  | .obj kvs => !kvs.isEmpty

/-- Python `x == "lit"` for a JSON value: true only for the equal string. -/
def jEqStr (v : JValue) (s : String) : Bool :=
  match v with
  | .str t => t == s
  | _ => false

/-- Lookup in a dict represented as an association list. -/
def objGet (kvs : List (String × JValue)) (k : String) : Option JValue :=
  (kvs.find? fun kv => kv.1 == k).map (·.2)

/-- Python `len(x)`: defined for dict, list and str; `TypeError` otherwise. -/
def pyLen : JValue → Except Unit Nat
  | .arr xs => .ok xs.length
  | .obj kvs => .ok kvs.length
  | .str s => .ok s.length
  | _ => .error ()

/-- Python `s in x` with a string on the left: key membership for a dict,
element membership for a list, substring test for a str;
`TypeError` for the other values. -/
def pyContains (s : String) : JValue → Except Unit Bool
  | .obj kvs => .ok (kvs.any fun kv => kv.1 == s)
  | .arr xs => .ok (xs.any fun x => jEqStr x s)
  | .str t => .ok (pyInStr s t)
  | _ => .error ()

/-- Python `x[k]` with a string key: only a dict containing the key succeeds;
a missing key is a `KeyError`, any other receiver a `TypeError`. -/
def pyIndexStr : JValue → String → Except Unit JValue
  | .obj kvs, k =>
    match objGet kvs k with
    | some v => .ok v
    | none => .error ()
  | _, _ => .error ()

/-- Python `x[i]` with a non-negative integer index: list indexing, or
1-character string extraction; out of range is an `IndexError`, a dict is a
`KeyError` (all keys here are strings), other receivers a `TypeError`. -/
def pyIndexNat : JValue → Nat → Except Unit JValue
  | .arr xs, i =>
    match xs.get? i with
    | some x => .ok x
    | none => .error ()
  | .str s, i =>
    match s.data.get? i with
    | some c => .ok (.str ⟨[c]⟩)
    | none => .error ()
  | _, _ => .error ()

/-- Python `x.get(k, default)`: only dicts have `.get`; anything else is an
`AttributeError`. -/
def pyDictGet (v : JValue) (k : String) (dflt : JValue) : Except Unit JValue :=
  match v with
  | .obj kvs => .ok ((objGet kvs k).getD dflt)
  | _ => .error ()

/-- Python iteration `for x in v`: lists yield elements, strings yield
1-character strings, dicts yield their keys; other values raise `TypeError`. -/
def pyIter : JValue → Except Unit (List JValue)
  | .arr xs => .ok xs
  | .str s => .ok (s.data.map fun c => .str ⟨[c]⟩)
  | .obj kvs => .ok (kvs.map fun kv => .str kv.1)
  | _ => .error ()

/-- Python `reversed(v)` over the same receivers as `pyIter`. -/
def pyReversed (v : JValue) : Except Unit (List JValue) :=
  (pyIter v).map List.reverse

/-- Python `a + b` as used by `model_response += part["text"]`: string and
list concatenation, int (and bool-as-int) addition; every mixed combination
raises `TypeError`. -/
def pyAdd : JValue → JValue → Except Unit JValue
  | .str a, .str b => .ok (.str (a ++ b))
  | .num a, .num b => .ok (.num (a + b))
  | .num a, .bool b => .ok (.num (a + (if b then 1 else 0)))
  | .bool a, .num b => .ok (.num ((if a then 1 else 0) + b))
  | .bool a, .bool b => .ok (.num ((if a then 1 else 0) + (if b then 1 else 0)))
  | .arr a, .arr b => .ok (.arr (a ++ b))
  | _, _ => .error ()

/-! ## The reply extractor (telegram_bot.py, `handle_message`, lines 306-346)

`model_response` starts as `""`; four schema attempts may overwrite it, the
later ones guarded by `if not model_response`; at the end a constant fallback
replaces any remaining falsy value.  The whole block runs inside
`handle_message`'s `try`, so an exception anywhere aborts extraction. -/

/-- The shared inner pattern
`if parts and len(parts) > 0 and "text" in parts[0]: model_response = parts[0]["text"]`
of schemas 1-3; on no match the current `model_response` is kept. -/
def partsExtract (parts mr : JValue) : Except Unit JValue := do
  if pyTruthy parts then
    let n ← pyLen parts
    if n > 0 then
      let p0 ← pyIndexNat parts 0
      let ht ← pyContains "text" p0
      if ht then pyIndexStr p0 "text" else pure mr
    else pure mr
  else pure mr

/-- Schema 1: `api_response["candidates"][0]["content"]["parts"][0]["text"]`,
guarded exactly as in the source. -/
def extractStep1 (api mr : JValue) : Except Unit JValue := do
  let hc ← pyContains "candidates" api
  if hc then
    let cands ← pyIndexStr api "candidates"
    let n ← pyLen cands
    if n > 0 then
      let firstCandidate ← pyIndexNat cands 0
      let h1 ← pyContains "content" firstCandidate
      if h1 then
        let content ← pyIndexStr firstCandidate "content"
        let h2 ← pyContains "parts" content
        if h2 then
          let parts ← pyIndexStr content "parts"
          partsExtract parts mr
        else pure mr
      else pure mr
    else pure mr
  else pure mr

/-- Schema 2: the whole response is a list and
`api_response[0]["content"]["parts"][0]["text"]` is used. -/
def extractStep2 (api mr : JValue) : Except Unit JValue :=
  match api with
  | .arr (firstItem :: _) => do
    let h1 ← pyContains "content" firstItem
    if h1 then
      let content ← pyIndexStr firstItem "content"
      let h2 ← pyContains "parts" content
      if h2 then
        let parts ← pyIndexStr content "parts"
        partsExtract parts mr
      else pure mr
    else pure mr
  | _ => pure mr

/-- Schema 3: `api_response["response"]` is a dict and its
`parts[0]["text"]` is used. -/
def extractStep3 (api mr : JValue) : Except Unit JValue := do
  let hr ← pyContains "response" api
  if hr then
    let responseObj ← pyIndexStr api "response"
    match responseObj with
    | .obj kvs => do
      let h2 ← pyContains "parts" (.obj kvs)
      if h2 then
        let parts ← pyIndexStr (.obj kvs) "parts"
        partsExtract parts mr
      else pure mr
    | _ => pure mr
  else pure mr

/-- Inner loop of schema 4:
`for part in parts: if "text" in part: model_response += part["text"]`. -/
def concatTexts : List JValue → JValue → Except Unit JValue
  | [], acc => .ok acc
  | p :: ps, acc => do
    let ht ← pyContains "text" p
    if ht then
      let t ← pyIndexStr p "text"
      let acc2 ← pyAdd acc t
      concatTexts ps acc2
    else concatTexts ps acc

/-- Outer loop of schema 4: scan the (already reversed) message list, stop at
the first message whose `role` equals `"model"` (`break`). -/
def scanMessages : List JValue → JValue → Except Unit JValue
  | [], acc => .ok acc
  | m :: ms, acc => do
    let role ← pyDictGet m "role" .null
    if jEqStr role "model" then
      let parts ← pyDictGet m "parts" (.arr [])
      let items ← pyIter parts
      concatTexts items acc
    else scanMessages ms acc

/-- Schema 4: `api_response["data"]["messages"]` scanned from the end for the
first message with `role == "model"`, concatenating its parts' texts. -/
def extractStep4 (api mr : JValue) : Except Unit JValue := do
  let hd ← pyContains "data" api
  if hd then
    let d ← pyIndexStr api "data"
    let hm ← pyContains "messages" d
    if hm then
      let messages ← pyIndexStr d "messages"
      if pyTruthy messages then
        let n ← pyLen messages
        if n > 0 then
          let items ← pyReversed messages
          scanMessages items mr
        else pure mr
      else pure mr
    else pure mr
  else pure mr

/-- The value of `model_response` after the four schema attempts (each of
schemas 2-4 runs only while the current value is falsy, mirroring the
`if not model_response and ...` guards). -/
def extractCore (api : JValue) : Except Unit JValue := do
  let mr1 ← extractStep1 api (.str "")
  let mr2 ← if pyTruthy mr1 then pure mr1 else extractStep2 api mr1
  let mr3 ← if pyTruthy mr2 then pure mr2 else extractStep3 api mr2
  if pyTruthy mr3 then pure mr3 else extractStep4 api mr3

/-- The constant final fallback string of `handle_message`. -/
def fallbackMsg : String :=
  "I received your message but couldn\x27t generate a proper response."

/-- The complete reply extraction:
`if not model_response: model_response = "I received your message ..."`. -/
def extractReply (api : JValue) : Except Unit JValue := do
  let mr ← extractCore api
  pure (if pyTruthy mr then mr else .str fallbackMsg)

/-- A response object matching schema 1 (`candidates[0].content.parts[0].text`
holding `t1`) and schema 3 (`response.parts[0].text` holding `t3`) at the same
time. -/
def mkBothSchemas (t1 t3 : String) : JValue :=
  .obj [("candidates",
          .arr [.obj [("content", .obj [("parts", .arr [.obj [("text", .str t1)]])])]]),
        ("response", .obj [("parts", .arr [.obj [("text", .str t3)]])])]

/-! ## Domain data of spiritual_api.py (identical in both copies) -/

/-- The `RELIGIONS` dictionary: religion identifier to numerical id. -/
def RELIGIONS : List (String × Nat) :=
  [("christianity", 1), ("islam", 2), ("hinduism", 3), ("buddhism", 4),
   ("judaism", 5), ("sikhism", 6), ("taoism", 7), ("jainism", 8),
   ("shintoism", 9), ("zoroastrianism", 10), ("bahai", 11),
   ("confucianism", 12), ("atheism", 13), ("agnosticism", 14), ("humanism", 15)]

/-- `RELIGIONS.keys()` in insertion order. -/
def religionKeys : List String :=
  RELIGIONS.map (·.1)

/-- The `PHILOSOPHIES` dictionary. -/
def PHILOSOPHIES : List (String × Nat) :=
  [("stoicism", 1), ("existentialism", 2), ("nihilism", 3), ("pragmatism", 4),
   ("utilitarianism", 5), ("hedonism", 6), ("rationalism", 7),
   ("empiricism", 8), ("idealism", 9), ("materialism", 10)]

/-- `PHILOSOPHIES.keys()` in insertion order. -/
def philosophyKeys : List String :=
  PHILOSOPHIES.map (·.1)

/-- The `CATEGORIES` dictionary: category identifier to description. -/
def CATEGORIES : List (String × String) :=
  [("general", "General religious and spiritual information"),
   ("rituals", "Religious rituals and practices"),
   ("philosophy", "Philosophy and ethics"),
   ("life", "Life guidance and spirituality"),
   ("comparative", "Comparative religion and interfaith"),
   ("nonreligious", "Non-religious and secular perspectives"),
   ("history", "Historical and cultural context")]

/-- `category in CATEGORIES` / `CATEGORIES[category]`. -/
def categoryLookup (c : String) : Option String :=
  (CATEGORIES.find? fun kv => kv.1 == c).map (·.2)

/-! ## Knowledge-query operations, up to the generative call

Each operation below is the deterministic prefix of the corresponding Python
method: argument validation, identifier normalisation, cache-key assembly and
prompt construction.  The call to the Generation Service and the caching of
its result are outside the embedding (the spec treats the Generation Service
as an external collaborator); an operation either fails with the structured
`{status:"error", message}` payload or proceeds to that call. -/

/-- Outcome of the deterministic prefix of a knowledge query: a structured
error payload, or the data flowing into the generative call. -/
inductive InfoOutcome where
  | error (message : String) : InfoOutcome
  | proceed (identifier cacheKey prompt : String) : InfoOutcome
deriving DecidableEq

/-- Is the outcome the structured `{status:"error", message}` payload? -/
def InfoOutcome.isErr : InfoOutcome → Bool
  | .error _ => true
  | .proceed _ _ _ => false

/-- Prompt assembled by `get_religious_information` (root `spiritual_api.py`,
identical in the packaged copy): an unknown category falls back to a generic
clause instead of failing. -/
def religiousPrompt (religion category : String) (specificQuery : Option String) : String :=
  "Provide accurate, respectful, and educational information about "
    ++ pyTitle religion ++ " "
    ++ (match categoryLookup category with
        | some desc => "focusing on " ++ desc ++ ". "
        | none => "covering its core beliefs, practices, and principles. ")
    ++ (match specificQuery with
        | some q => if q = "" then "" else "Specifically address this question: " ++ q
        | none => "")
    ++ "\n\nPlease structure your response with these sections when applicable:\n"
    ++ "1. Core Beliefs\n2. Key Practices\n3. Sacred Texts\n4. Historical Context\n5. Modern Interpretation"

/-- Cache key of `get_religious_information`:
`self._get_cache_key("religion", religion, category)` plus
`"-" + specific_query[:50]` when a specific query is given. -/
def religiousCacheKey (religion category : String) (specificQuery : Option String) : String :=
  let k := get_cache_key "religion" religion (some category)
  match specificQuery with
  | some q => if q = "" then k else k ++ "-" ++ pyTake q 50
  | none => k

/-- `SpiritualKnowledgeAPI.get_religious_information` up to the generative
call: empty religion raises `ValueError` (converted by the method's `except`
into an error payload), the identifier is lowercased, unknown religions give
an inline error payload, and everything else proceeds. -/
def get_religious_information (religion category : String)
    (specificQuery : Option String) : InfoOutcome :=
  if religion = "" then
    .error "Error retrieving information: Religion identifier is required"
  else
    let r := pyLower religion
    if religionKeys.contains r then
      .proceed r (religiousCacheKey r category specificQuery)
        (religiousPrompt r category specificQuery)
    else
      .error ("Unknown religion: " ++ r ++ ". Available options are: "
        ++ String.intercalate ", " religionKeys)

/-- Prompt assembled by `get_philosophical_perspective` (root
`spiritual_api.py`). -/
def philosophicalPrompt (philosophy : String) (topic : Option String) : String :=
  "Provide an educational explanation of " ++ philosophy ++ " philosophy "
    ++ (match topic with
        | some t => if t = "" then "covering its key principles, notable thinkers, and practical applications. "
                    else "specifically addressing: " ++ t ++ ". "
        | none => "covering its key principles, notable thinkers, and practical applications. ")
    ++ "\n\nPlease structure your response with these sections:\n"
    ++ "1. Core Principles\n2. Key Thinkers\n3. Historical Context\n4. Modern Relevance\n5. Practical Applications"

/-- Cache key of `get_philosophical_perspective`:
`self._get_cache_key("philosophy", philosophy)` plus `"-" + topic[:50]` when a
topic is given. -/
def philosophicalCacheKey (philosophy : String) (topic : Option String) : String :=
  let k := get_cache_key "philosophy" philosophy none
  match topic with
  | some t => if t = "" then k else k ++ "-" ++ pyTake t 50
  | none => k

/-- `SpiritualKnowledgeAPI.get_philosophical_perspective` up to the
generative call (root `spiritual_api.py`). -/
def get_philosophical_perspective (philosophy : String) (topic : Option String) : InfoOutcome :=
  if philosophy = "" then
    .error "Error retrieving information: Philosophy identifier is required"
  else
    let p := pyLower philosophy
    if philosophyKeys.contains p then
      .proceed p (philosophicalCacheKey p topic) (philosophicalPrompt p topic)
    else
      .error ("Unknown philosophy: " ++ p ++ ". Available options are: "
        ++ String.intercalate ", " philosophyKeys)

/-! ## Meditation guide: both implementations

The repository holds two copies of `get_meditation_guide`.  The packaged one
(`masterversacharya/spiritual_api.py`) validates `duration`; the root one
(`spiritual_api.py`, the module `agent.py` imports) does not validate it at
all.  Prompt assembly is the out-of-scope pass-through, so the proceed branch
carries the cache key the method builds. -/

/-- Outcome of the deterministic prefix of `get_meditation_guide`. -/
inductive MeditationOutcome where
  | error (message : String) : MeditationOutcome
  | proceed (cacheKey : String) : MeditationOutcome
deriving DecidableEq

/-- Is the outcome the structured error payload? -/
def MeditationOutcome.isErr : MeditationOutcome → Bool
  | .error _ => true
  | .proceed _ => false

/-- Root `spiritual_api.py` `get_meditation_guide`: no duration validation;
`cache_key = f"meditation-{duration}-{focus}"` with a `-{tradition}` suffix
when a tradition is given (Python truthiness). -/
def root_get_meditation_guide (tradition : Option String) (duration : Int)
    (focus : String) : MeditationOutcome :=
  let key := "meditation-" ++ toString duration ++ "-" ++ focus
  let key := match tradition with
    | some t => if t = "" then key else key ++ "-" ++ t
    | none => key
  .proceed key

/-- Packaged `masterversacharya/spiritual_api.py` `get_meditation_guide`:
`if duration < 1 or duration > 60:` yields an inline error payload; otherwise
`self._get_cache_key("meditation", f"{focus}-{duration}",
tradition if tradition else "general")`. -/
def master_get_meditation_guide (tradition : Option String) (duration : Int)
    (focus : String) : MeditationOutcome :=
  if duration < 1 ∨ duration > 60 then
    .error "Duration must be between 1 and 60 minutes"
  else
    .proceed (get_cache_key "meditation" (focus ++ "-" ++ toString duration)
      (some (match tradition with
             | some t => if t = "" then "general" else t
             | none => "general")))

/-! ## Interfaith dialogue (masterversacharya/spiritual_api.py) -/

/-- Outcome of the deterministic prefix of `get_interfaith_dialogue`. -/
inductive DialogueOutcome where
  | error (message : String) : DialogueOutcome
  | proceed (validReligions : List String) (cacheKey : String) : DialogueOutcome
deriving DecidableEq

/-- Is the outcome the structured error payload? -/
def DialogueOutcome.isErr : DialogueOutcome → Bool
  | .error _ => true
  | .proceed _ _ => false

/-- The default participant set substituted when fewer than two religions are
supplied: `religions = ["christianity", "islam", "hinduism", "buddhism",
"judaism"]`. -/
def defaultDialogueReligions : List String :=
  ["christianity", "islam", "hinduism", "buddhism", "judaism"]

/-- The validation loop: each participant is lowercased and kept only when it
is a `RELIGIONS` key. -/
def validParticipants (religions : List String) : List String :=
  religions.filterMap fun r =>
    let rl := pyLower r
    if religionKeys.contains rl then some rl else none

/-- `SpiritualKnowledgeAPI.get_interfaith_dialogue` up to the generative
call: an empty topic raises `ValueError` (converted to an error payload by the
`except`); `if not religions or len(religions) < 2:` replaces the participant
list with the default five; then unknown participants are filtered out and at
least two must remain. -/
def get_interfaith_dialogue (topic : String) (religions : Option (List String)) : DialogueOutcome :=
  if topic = "" then
    .error "Error generating interfaith dialogue: Topic is required for interfaith dialogue"
  else
    let rels := match religions with
      | none => defaultDialogueReligions
      | some rs => if rs.length < 2 then defaultDialogueReligions else rs
    let valid := validParticipants rels
    if valid.length < 2 then
      .error ("At least 2 valid religions are required. Available options are: "
        ++ String.intercalate ", " religionKeys)
    else
      .proceed valid (interfaithCacheKey valid topic)

/-! ## Telegram bot: session store and remote-call traces (telegram_bot.py)

Each handler is modelled by the sequence of remote HTTP calls it issues and
(for C8) the number of failure reports it sends to the user, as functions of
the outcome of each remote call.  `CallResult.ok` is a 200 response,
`httpError` a non-200 response, `exn` a raised exception (network failure or
timeout).  The in-memory `user_sessions` dictionary is a function from the
Telegram user id to an optional binding. -/

/-- One entry of `user_sessions`. -/
structure SessionBinding where
  session_id : String
  telegram_username : String
deriving DecidableEq

/-- The remote operations of the Agent Run Service used by the bot. -/
inductive RemoteCall where
  | createSession : RemoteCall
  | listSessions : RemoteCall
  | deleteSession : RemoteCall
  | runAgent : RemoteCall
  | getArtifacts : RemoteCall
deriving DecidableEq

/-- Outcome of one remote call. -/
inductive CallResult where
  | ok : CallResult
  | httpError : CallResult
  | exn : CallResult
deriving DecidableEq

/-- `user_sessions[user_id] = {...}`. -/
def storeSet (store : String → Option SessionBinding) (uid : String)
    (b : SessionBinding) : String → Option SessionBinding :=
  fun u => if u = uid then some b else store u

/-- `del user_sessions[user_id]`. -/
def storeRemove (store : String → Option SessionBinding) (uid : String) :
    String → Option SessionBinding :=
  fun u => if u = uid then none else store u

/-- `/deletesession`: with no active binding it only answers with a hint;
with one it only presents the confirm/cancel keyboard.  Either way it issues
no remote call and leaves the store untouched; the boolean records whether
the confirmation handshake was presented. -/
def delete_session_run (store : String → Option SessionBinding) (uid : String) :
    List RemoteCall × (String → Option SessionBinding) × Bool :=
  match store uid with
  | none => ([], store, false)
  | some _ => ([], store, true)

/-- `button_callback`: dispatch on the callback data.  `select_session:<id>`
overwrites the binding; `confirm_delete` is the only branch issuing the
remote DELETE, and only a 200 removes the local binding; `cancel_delete`
and unrecognised data do nothing. -/
def button_callback_run (store : String → Option SessionBinding)
    (uid uname data : String) (deleteRes : CallResult) :
    List RemoteCall × (String → Option SessionBinding) :=
  if data.startsWith "select_session:" then
    ([], storeSet store uid ⟨(data.splitOn ":").getD 1 "", uname⟩)
  else if data = "confirm_delete" then
    match store uid with
    | some _ =>
      match deleteRes with
      | .ok => ([.deleteSession], storeRemove store uid)
      | .httpError => ([.deleteSession], store)
      | .exn => ([.deleteSession], store)
    | none => ([], store)
  else if data = "cancel_delete" then ([], store)
  else ([], store)

/-- A concrete one-user session store, for evaluating the handler models. -/
def sampleStore : String → Option SessionBinding :=
  fun u => if u = "42" then some ⟨"sess1", "alice"⟩ else none

/-! # Theorems

Helper lemmas first, then one theorem per claim (with witness or
counterexample theorems where required). -/

theorem toNat_toLower (c : Char) :
    c.toLower.toNat = if c.toNat ≥ 65 ∧ c.toNat ≤ 90 then c.toNat + 32 else c.toNat := by
  simp only [Char.toLower]
  by_cases h : c.toNat ≥ 65 ∧ c.toNat ≤ 90
  · rw [if_pos h, if_pos h]
    have hv : (c.toNat + 32).isValidChar := Or.inl (by omega)
    delta Char.ofNat
    rw [dif_pos hv]
    rfl
  · rw [if_neg h, if_neg h]

theorem toLower_eq_self (d : Char) (h : ¬(d.toNat ≥ 65 ∧ d.toNat ≤ 90)) :
    d.toLower = d := by
  simp only [Char.toLower]
  exact if_neg h

theorem toLower_toLower (c : Char) : c.toLower.toLower = c.toLower := by
  refine toLower_eq_self _ ?_
  rw [toNat_toLower c]
  split <;> omega

theorem pyLower_pyLower (s : String) : pyLower (pyLower s) = pyLower s := by
  unfold pyLower
  simp [List.map_map, Function.comp_def, toLower_toLower]

theorem pyLower_eq_empty_iff (s : String) : pyLower s = "" ↔ s = "" := by
  unfold pyLower
  constructor
  · intro h
    have hdata : s.data.map Char.toLower = [] := congrArg String.data h
    have hnil : s.data = [] := List.map_eq_nil_iff.mp hdata
    have : s = String.mk [] := by
      cases s
      exact congrArg String.mk hnil
    exact this
  · intro h
    subst h
    rfl

theorem lexLeChars_total : ∀ cs ds : List Char,
    lexLeChars cs ds = true ∨ lexLeChars ds cs = true := by
  intro cs
  induction cs with
  | nil => intro ds; left; rfl
  | cons c cs ih =>
    intro ds
    cases ds with
    | nil => right; rfl
    | cons d ds =>
      by_cases hcd : c < d
      · left; simp [lexLeChars, hcd]
      · by_cases hdc : d < c
        · right; simp [lexLeChars, hdc]
        · have heq : c = d := le_antisymm (not_lt.mp hdc) (not_lt.mp hcd)
          subst heq
          simpa [lexLeChars] using ih ds

theorem lexLeChars_trans : ∀ as bs cs : List Char,
    lexLeChars as bs = true → lexLeChars bs cs = true → lexLeChars as cs = true := by
  intro as
  induction as with
  | nil => intro bs cs _ _; rfl
  | cons a as ih =>
    intro bs cs h1 h2
    cases bs with
    | nil => simp [lexLeChars] at h1
    | cons b bs =>
      cases cs with
      | nil => simp [lexLeChars] at h2
      | cons c cs =>
        simp only [lexLeChars] at h1 h2 ⊢
        by_cases hab : a < b
        · by_cases hbc : b < c
          · simp [lt_trans hab hbc]
          · by_cases hcb : c < b
            · simp [hbc, hcb] at h2
            · have : b = c := le_antisymm (not_lt.mp hcb) (not_lt.mp hbc)
              subst this
              simp [hab]
        · by_cases hba : b < a
          · simp [hab, hba] at h1
          · have : a = b := le_antisymm (not_lt.mp hba) (not_lt.mp hab)
            subst this
            simp only [lt_irrefl, if_false] at h1 ⊢
            by_cases hbc : a < c
            · simp [hbc]
            · by_cases hcb : c < a
              · simp [hbc, hcb] at h2
              · have : a = c := le_antisymm (not_lt.mp hcb) (not_lt.mp hbc)
                subst this
                simp only [lt_irrefl, if_false] at h2 ⊢
                exact ih bs cs h1 h2

theorem lexLeChars_antisymm : ∀ as bs : List Char,
    lexLeChars as bs = true → lexLeChars bs as = true → as = bs := by
  intro as
  induction as with
  | nil =>
    intro bs _ h2
    cases bs with
    | nil => rfl
    | cons b bs => simp [lexLeChars] at h2
  | cons a as ih =>
    intro bs h1 h2
    cases bs with
    | nil => simp [lexLeChars] at h1
    | cons b bs =>
      simp only [lexLeChars] at h1 h2
      by_cases hab : a < b
      · simp [hab, lt_asymm hab] at h2
      · by_cases hba : b < a
        · simp [hab, hba] at h1
        · have : a = b := le_antisymm (not_lt.mp hba) (not_lt.mp hab)
          subst this
          simp only [lt_irrefl, if_false] at h1 h2
          rw [ih bs h1 h2]

theorem pySorted_perm_invariant (l₁ l₂ : List String) (h : l₁.Perm l₂) :
    pySorted l₁ = pySorted l₂ := by
  haveI : IsTotal String pyLeRel := ⟨fun a b => lexLeChars_total a.data b.data⟩
  haveI : IsTrans String pyLeRel := ⟨fun a b c => lexLeChars_trans a.data b.data c.data⟩
  haveI : IsAntisymm String pyLeRel :=
    ⟨fun a b h1 h2 => congrArg String.mk (lexLeChars_antisymm a.data b.data h1 h2)⟩
  exact List.eq_of_perm_of_sorted
    ((List.perm_insertionSort pyLeRel l₁).trans
      (h.trans (List.perm_insertionSort pyLeRel l₂).symm))
    (List.sorted_insertionSort pyLeRel l₁)
    (List.sorted_insertionSort pyLeRel l₂)

/-! ## Claim C1 -/

/-- C1 counterexample: the religion-comparison cache key is not
order-independent; `compare_religions("christianity", "islam", "general")`
and `compare_religions("islam", "christianity", "general")` cache under
different keys, because `f"{religion1}-{religion2}"` joins the pair in call
order without sorting. -/
theorem C1_compare_key_order_dependent :
    compareCacheKey "christianity" "islam" "general" ≠
      compareCacheKey "islam" "christianity" "general" := by
  decide

/-- C1 (amended): only the interfaith-dialogue cache key sorts its
participant identifiers before concatenation, so it is order-independent:
any two orderings of the same participant set produce the same key. -/
theorem C1_interfaith_key_order_independent (l₁ l₂ : List String) (topic : String)
    (h : l₁.Perm l₂) :
    interfaithCacheKey l₁ topic = interfaithCacheKey l₂ topic := by
  unfold interfaithCacheKey
  rw [pySorted_perm_invariant l₁ l₂ h]

/-- C1 witness: the amended theorem at the concrete participant set
`{islam, christianity}` and topic `"ethics"`. -/
theorem C1_interfaith_key_order_independent_witness :
    interfaithCacheKey ["islam", "christianity"] "ethics" =
      interfaithCacheKey ["christianity", "islam"] "ethics" :=
  C1_interfaith_key_order_independent ["islam", "christianity"]
    ["christianity", "islam"] "ethics" (by decide)

/-! ## Claim C4 -/

/-- C4: immediately after `put(k, v)` at time `t`, `get(k)` at time `t`
returns `v`; once the clock satisfies `now - t >= ttl` (with
`ttl = cacheTime = 24 * 60 * 60` seconds), `get(k)` returns absent, the
expiry being checked lazily at read time. -/
theorem C4_cache_roundtrip_and_expiry (α : Type) (cache : String → Option (α × Int))
    (k : String) (v : α) (t now : Int) :
    cacheGet (cachePut cache k v t) k t cacheTime = some v ∧
    (now - t ≥ cacheTime → cacheGet (cachePut cache k v t) k now cacheTime = none) := by
  constructor
  · have hlt : (0 : Int) < cacheTime := by unfold cacheTime; omega
    simp [cacheGet, cachePut, hlt]
  · intro h
    have hlt : ¬(now - t < cacheTime) := by omega
    simp [cacheGet, cachePut, hlt]

/-- C4 witness: the round-trip and the expiry at a concrete key, payload and
clock (put at time 0, ttl boundary at 86400). -/
theorem C4_cache_roundtrip_and_expiry_witness :
    cacheGet (cachePut (fun _ => (none : Option (Nat × Int))) "religion-islam-general" 7 0)
      "religion-islam-general" 0 cacheTime = some 7 ∧
    cacheGet (cachePut (fun _ => (none : Option (Nat × Int))) "religion-islam-general" 7 0)
      "religion-islam-general" 86400 cacheTime = none :=
  ⟨(C4_cache_roundtrip_and_expiry Nat (fun _ => none) "religion-islam-general" 7 0 86400).1,
   (C4_cache_roundtrip_and_expiry Nat (fun _ => none) "religion-islam-general" 7 0 86400).2
     (by decide)⟩

/-! ## Claim C5 -/

/-- C5 counterexample: `interfaith_dialogue("ethics", ["atlantis"])` does not
return a ValidationError; since fewer than two participants were supplied,
the list is replaced by the default five religions and validation passes. -/
theorem C5_single_unknown_participant_proceeds :
    get_interfaith_dialogue "ethics" (some ["atlantis"]) =
      .proceed ["christianity", "islam", "hinduism", "buddhism", "judaism"]
        "interfaith-buddhism-christianity-hinduism-islam-judaism-ethics" := by
  decide

/-- C5 (amended): the fewer-than-two-valid-participants ValidationError is
produced only when at least two participants are supplied (otherwise the
default set is substituted) and, after lowercasing and filtering unknown
ones, fewer than two remain. -/
theorem C5_too_few_valid_participants_error (topic : String) (rs : List String)
    (h1 : topic ≠ "") (h2 : 2 ≤ rs.length) (h3 : (validParticipants rs).length < 2) :
    get_interfaith_dialogue topic (some rs) =
      .error ("At least 2 valid religions are required. Available options are: "
        ++ String.intercalate ", " religionKeys) := by
  unfold get_interfaith_dialogue
  rw [if_neg h1]
  simp only
  rw [if_neg (by omega : ¬rs.length < 2)]
  rw [if_pos h3]

/-- C5 witness: two unknown participants do produce the ValidationError. -/
theorem C5_too_few_valid_participants_error_witness :
    get_interfaith_dialogue "ethics" (some ["atlantis", "mordor"]) =
      .error ("At least 2 valid religions are required. Available options are: "
        ++ String.intercalate ", " religionKeys) :=
  C5_too_few_valid_participants_error "ethics" ["atlantis", "mordor"]
    (by decide) (by decide) (by decide)

/-! ## Claim C6 -/

/-- C6 counterexample: the meditation-guide implementation actually wired to
the agent (root `spiritual_api.py`, imported by `agent.py`) performs no
duration validation: `duration=0` proceeds straight to cache lookup and the
generative call instead of returning a ValidationError. -/
theorem C6_root_duration_zero_proceeds :
    root_get_meditation_guide none 0 "mindfulness" =
      .proceed "meditation-0-mindfulness" := by
  rfl

/-- C6 (amended): only the packaged `masterversacharya` copy of
`get_meditation_guide` validates the duration: it returns the ValidationError
payload exactly when the duration lies outside 1..60 (so 0 and 61 fail and 30
succeeds there), while the root copy used by the agent never validates the
duration at all. -/
theorem C6_master_validates_duration_root_does_not (tradition : Option String)
    (focus : String) (d : Int) :
    (master_get_meditation_guide tradition d focus =
        .error "Duration must be between 1 and 60 minutes" ↔ (d < 1 ∨ d > 60)) ∧
    (root_get_meditation_guide tradition d focus).isErr = false := by
  constructor
  · unfold master_get_meditation_guide
    by_cases h : d < 1 ∨ d > 60
    · simp [h]
    · simp [h]
  · unfold root_get_meditation_guide MeditationOutcome.isErr
    rfl

/-! ## Claim C7 -/

/-- C7 counterexample: a knowledge query with a valid religion and an unknown
category id is not rejected: `get_religious_information("christianity",
category="bogus")` proceeds, caching under the unknown category and using the
generic prompt clause instead of a category description. -/
theorem C7_unknown_category_proceeds :
    get_religious_information "christianity" "bogus" none =
      .proceed "christianity" "religion-christianity-bogus"
        ("Provide accurate, respectful, and educational information about Christianity covering its core beliefs, practices, and principles. \n\nPlease structure your response with these sections when applicable:\n1. Core Beliefs\n2. Key Practices\n3. Sacred Texts\n4. Historical Context\n5. Modern Interpretation") := by
  rfl

/-- C7 (amended): `get_religious_information` returns a structured error
payload exactly when the religion identifier is empty or unknown after
lowercasing; the category id is never validated (an unknown category only
changes the prompt clause). -/
theorem C7_error_iff_bad_religion (religion category : String) (q : Option String) :
    (get_religious_information religion category q).isErr = true ↔
      (religion = "" ∨ pyLower religion ∉ religionKeys) := by
  unfold get_religious_information
  by_cases h : religion = ""
  · simp [h, InfoOutcome.isErr]
  · by_cases h2 : pyLower religion ∈ religionKeys
    · simp [h, h2, InfoOutcome.isErr]
    · simp [h, h2, InfoOutcome.isErr]

/-! ## Claim C2 -/

/-- C2 counterexample: the reply extractor is not total.  On the malformed
JSON response `["candidates"]` the membership test `"candidates" in
api_response` succeeds (list membership), and the following
`api_response["candidates"]` indexes a list with a string, raising a
`TypeError`; the surrounding `except` then sends an apology, so the fallback
constant is never produced. -/
theorem C2_extractor_raises_on_malformed_list :
    extractReply (.arr [.str "candidates"]) = .error () := by
  rfl

/-- C2 (amended): whenever the four schema attempts complete without raising
and leave a falsy `model_response`, the extractor returns exactly the
constant string "I received your message but couldn't generate a proper
response.", but on some malformed inputs extraction raises instead of
reaching the fallback. -/
theorem C2_fallback_when_no_schema_matches (api mr : JValue)
    (h1 : extractCore api = .ok mr) (h2 : pyTruthy mr = false) :
    extractReply api = .ok (.str fallbackMsg) := by
  unfold extractReply
  rw [h1]
  simp [Bind.bind, Except.bind, h2, pure, Except.pure]

/-- C2 witness: the empty JSON object matches no schema and yields the
fallback constant. -/
theorem C2_fallback_when_no_schema_matches_witness :
    extractReply (.obj []) = .ok (.str fallbackMsg) :=
  C2_fallback_when_no_schema_matches (.obj []) (.str "") (by rfl) (by rfl)

/-! ## Claim C3 -/

/-- C3: the extractor tries the four schemas in order and stops at the first
non-empty result; on a response matching both schema 1 (text `t1`) and
schema 3 (text `t3`), schema 1's text is returned whenever it is non-empty. -/
theorem C3_schema1_beats_schema3 (t1 t3 : String) (h : t1 ≠ "") :
    extractReply (mkBothSchemas t1 t3) = .ok (.str t1) := by
  have hstep1 : extractStep1 (mkBothSchemas t1 t3) (.str "") = .ok (.str t1) := by
    rfl
  have htruthy : pyTruthy (.str t1) = true := by
    simp [pyTruthy, h]
  unfold extractReply extractCore
  rw [hstep1]
  simp [Bind.bind, Except.bind, htruthy, pure, Except.pure]

/-- C3 witness: concrete texts for both schemas; schema 1 wins. -/
theorem C3_schema1_beats_schema3_witness :
    extractReply (mkBothSchemas "from schema one" "from schema three") =
      .ok (.str "from schema one") :=
  C3_schema1_beats_schema3 "from schema one" "from schema three" (by decide)

/-! ## Claim C10 -/

/-- C10: religion and philosophy identifiers are case-insensitive: both
knowledge queries behave identically on `r` and on `r.lower()`, because the
identifier is lowercased before validation, cache-key construction and
payload assembly. -/
theorem C10_identifier_case_insensitive (r category : String)
    (q topic : Option String) :
    get_religious_information r category q =
      get_religious_information (pyLower r) category q ∧
    get_philosophical_perspective r topic =
      get_philosophical_perspective (pyLower r) topic := by
  by_cases h : r = ""
  · subst h
    exact ⟨rfl, rfl⟩
  · have h2 : pyLower r ≠ "" := fun he => h ((pyLower_eq_empty_iff r).mp he)
    constructor
    · unfold get_religious_information
      rw [if_neg h, if_neg h2, pyLower_pyLower]
    · unfold get_philosophical_perspective
      rw [if_neg h, if_neg h2, pyLower_pyLower]

/-! ## Claim C8 -/

/-- C9: the `/deletesession` command only presents the confirm/cancel
handshake: it issues no remote call and leaves the store untouched; the
remote DELETE is issued exclusively by the `confirm_delete` callback branch;
and when the remote delete fails (non-200 or exception) the local binding is
left untouched. -/
theorem C9_delete_requires_confirmation (store : String → Option SessionBinding)
    (uid uname data : String) (res : CallResult) :
    (delete_session_run store uid).1 = [] ∧
    (delete_session_run store uid).2.1 = store ∧
    (RemoteCall.deleteSession ∈ (button_callback_run store uid uname data res).1 →
      data = "confirm_delete") ∧
    (res ≠ .ok → (button_callback_run store uid uname "confirm_delete" res).2 = store) := by
  refine ⟨?_, ?_, ?_, ?_⟩
  · cases hstore : store uid <;> simp [delete_session_run, hstore]
  · cases hstore : store uid <;> simp [delete_session_run, hstore]
  · intro hmem
    unfold button_callback_run at hmem
    by_cases h1 : data.startsWith "select_session:"
    · simp [h1] at hmem
    · by_cases h2 : data = "confirm_delete"
      · exact h2
      · rw [if_neg h1, if_neg h2] at hmem
        by_cases h3 : data = "cancel_delete"
        · rw [if_pos h3] at hmem
          simp at hmem
        · rw [if_neg h3] at hmem
          simp at hmem
  · intro hres
    unfold button_callback_run
    have h1 : ("confirm_delete".startsWith "select_session:") = false := by decide
    rw [if_neg (by simp [h1]), if_pos rfl]
    cases hstore : store uid with
    | none => rfl
    | some b =>
      cases res with
      | ok => exact absurd rfl hres
      | httpError => rfl
      | exn => rfl

/-- C9 witness: with a bound session for user "42", the delete command issues
no remote call and a failed confirmed delete leaves the binding in place. -/
theorem C9_delete_requires_confirmation_witness :
    (delete_session_run sampleStore "42").1 = [] ∧
    (button_callback_run sampleStore "42" "alice" "confirm_delete" .httpError).2 = sampleStore :=
  ⟨(C9_delete_requires_confirmation sampleStore "42" "alice" "confirm_delete" .httpError).1,
   (C9_delete_requires_confirmation sampleStore "42" "alice" "confirm_delete" .httpError).2.2.2
     (by decide)⟩
